import Mathlib

/-
Verification development for the assistantAI repository.

The Python modules (agents.py, gmail.py, google_calendar.py, x.py, spotify.py,
common.py, run.py) are shallowly embedded as Lean definitions:

* Python dictionaries holding session context become the `Context` structure
  (each key read by the code is an `Option String` field; `dict.get k default`
  becomes `field.getD default`).
* External services (Gmail, Google Calendar, Twitter, Spotify) are abstract
  backends: each operation the Python code performs on a client object is a
  field of a service structure returning `Except String α`, where
  `Except.error e` models the operation raising an exception whose `str` is
  `e`.
* A Python function body of the form `acquire client; try: ... except
  Exception as e: return error-payload` becomes a wrapper that pattern-matches
  the acquisition step (exceptions there propagate as `Except.error`) and a
  total `..._try` function for the try-block (exceptions inside the block are
  caught and turned into `<result><error>...</error></result>` strings, so the
  block itself is a total `String`-valued function of the backend).
* `datetime.now()` / `datetime.utcnow()` readings are passed in explicitly
  (a `now : String` argument or an environment field), making the clock
  dependence visible.
* Logging calls are omitted: they do not affect any return value.

f-strings are rendered as explicit `++` concatenations of the literal
template fragments, with Python's apostrophe written as the escape \x27.
-/

/-! ## Context (agents.py: context_variables dictionary) -/

/-- The session context dictionary.  Only the keys actually read by the code
appear; a `none` field models the key being absent from the dictionary. -/
structure Context where
  user_name : Option String
  email : Option String
  preferred_language : Option String
  location : Option String
  twitter_username : Option String
  tweet_preferred_language : Option String
  current_datetime : Option String
deriving Repr, DecidableEq

/-- The empty context: no key present. -/
def emptyContext : Context := ⟨none, none, none, none, none, none, none⟩

namespace Agents

/-! ## Instruction templates (agents.py lines 27-123)

Each Python instruction function takes `context_variables`; the embeddings
additionally take `now : String`, the value `datetime.now().isoformat()`
would produce at the moment of the call.  Functions whose Python source never
calls `datetime.now` ignore this argument (named `_now`). -/

/-- agents.py `base_assistant_instructions` (lines 27-43). -/
def base_assistant_instructions (context_variables : Context) (now : String) : String :=
  let user_name := context_variables.user_name.getD "User"
  let preferred_language := context_variables.preferred_language.getD "English"
  let location := context_variables.location.getD "N/A"
  let current_datetime := context_variables.current_datetime.getD now
  "\n    You are a personal assistant for " ++ user_name ++
  ". You coordinate between specialized agents for email, calendar, and social media tasks.\n    Use the following user information to personalize your responses:\n    - User Name: " ++
  user_name ++
  "\n    - Preferred Language: " ++ preferred_language ++
  "\n    - Location: " ++ location ++
  "\n    - Current Date/Time: " ++ current_datetime ++
  "\n\n    Always address the user by their name and consider their location and preferred language when responding.\n    Direct specific tasks to the appropriate specialized agent.\n    "

/-- agents.py `email_assistant_instructions` (lines 46-66). -/
def email_assistant_instructions (context_variables : Context) (_now : String) : String :=
  "\n    You are an email management specialist for " ++
  context_variables.user_name.getD "User" ++
  ".\n    User Email: " ++ context_variables.email.getD "N/A" ++
  "\n    Preferred Language: " ++ context_variables.preferred_language.getD "English" ++
  "\n    \n    You can:\n    - Read and search emails\n    - Get detailed information about specific emails\n    - Write and send emails\n    \n    You cannot:\n    - Delete emails\n    - Manage calendar events\n    \n    Rules:\n    - Before sending an email, confirm with User the email content and recipients.\n    - IMPORTANT: Do not send an email without User\x27s approval.\n    - Always use get_email_by_id function with the appropriate email ID for detailed email content queries.\n    - When reading an email, provide a summary of the email content.\n    "

/-- agents.py `calendar_assistant_instructions` (lines 69-86). -/
def calendar_assistant_instructions (context_variables : Context) (now : String) : String :=
  "\n    You are a calendar management specialist for " ++
  context_variables.user_name.getD "User" ++
  ".\n    Current Datetime: " ++ context_variables.current_datetime.getD now ++
  "\n    User Preferred Language: " ++ context_variables.preferred_language.getD "English" ++
  "\n    User Location: " ++ context_variables.location.getD "N/A" ++
  "\n    \n    You can:\n    - List upcoming events\n    - Create new calendar events\n    - Update existing events\n    - Delete events\n    \n    Rules:\n    - Always confirm event details with User before creating, updating, or deleting events.\n    \n    Important: Always handle dates and times in ISO format and consider the user\x27s timezone.\n    "

/-- agents.py `social_media_assistant_instructions` (lines 89-103).
Note the fallback value for the missing `tweet_preferred_language` key
is the literal "Polish" in the source. -/
def social_media_assistant_instructions (context_variables : Context) (_now : String) : String :=
  "\n    You are a social media specialist for " ++
  context_variables.user_name.getD "User" ++
  ".\n    Twitter Username: " ++ context_variables.twitter_username.getD "N/A" ++
  "\n    User Language: " ++ context_variables.tweet_preferred_language.getD "Polish" ++
  "\n    \n    You can:\n    - Send tweets on User\x27s Twitter account with engaging content.\n    \n    Rules:\n    - Always confirm the tweet content with User before posting.\n    - IMPORTANT: Do not post before User\x27s approval.\n    - Tweet content should be engaging.\n    - Use the tweet_preferred_language to determine the language of the tweet.\n    "

/-- agents.py `music_assistant_instructions` (lines 106-123). -/
def music_assistant_instructions (context_variables : Context) (_now : String) : String :=
  "\n    You are a music assistant for " ++
  context_variables.user_name.getD "User" ++
  ".\n    Preferred Language: " ++ context_variables.preferred_language.getD "English" ++
  "\n    \n    You can:\n    - Search for content on Spotify (tracks, albums, artists, playlists)\n    - Play content by URI\n    - Control playback (play, pause, next, previous)\n    - Get information about currently playing track\n\n    Rules:\n    - When just searching, provide to User the most important information about the content\n    - Provide content information when starting playback\n    - Always handle errors gracefully and inform the user if there are any playback issues\n    - Note that only tracks, albums, artists, and playlists can be played directly\n    - For shows, episodes, and audiobooks, you can only search and provide information\n    "

/-! ## Agent registry (agents.py lines 126-215) -/

/-- The five agents constructed in agents.py. -/
inductive AgentId
  | base
  | email
  | calendar
  | socialMedia
  | music
deriving Repr, DecidableEq

/-- A reference to one of the Python functions placed in an agent's
`functions` list (capability functions and transfer functions). -/
inductive FuncRef
  | read_emails
  | get_email_by_id
  | search_for_emails
  | write_email
  | list_upcoming_events
  | create_event
  | delete_event
  | update_event
  | send_tweet
  | play
  | search
  | get_current_track
  | control_playback
  | transfer_to_email_agent
  | transfer_to_calendar_agent
  | transfer_to_social_media_agent
  | transfer_to_music_agent
  | transfer_back_to_base_agent
deriving Repr, DecidableEq

/-- The Python `__name__` of each function in the registry. -/
def funcName : FuncRef → String
  | .read_emails => "read_emails"
  | .get_email_by_id => "get_email_by_id"
  | .search_for_emails => "search_for_emails"
  | .write_email => "write_email"
  | .list_upcoming_events => "list_upcoming_events"
  | .create_event => "create_event"
  | .delete_event => "delete_event"
  | .update_event => "update_event"
  | .send_tweet => "send_tweet"
  | .play => "play"
  | .search => "search"
  | .get_current_track => "get_current_track"
  | .control_playback => "control_playback"
  | .transfer_to_email_agent => "transfer_to_email_agent"
  | .transfer_to_calendar_agent => "transfer_to_calendar_agent"
  | .transfer_to_social_media_agent => "transfer_to_social_media_agent"
  | .transfer_to_music_agent => "transfer_to_music_agent"
  | .transfer_back_to_base_agent => "transfer_back_to_base_agent"

/-- agents.py `transfer_to_email_agent` (lines 180-182): a zero-argument
function that does nothing but return the email agent reference. -/
def transfer_to_email_agent : AgentId := AgentId.email

/-- agents.py `transfer_to_calendar_agent` (lines 185-187). -/
def transfer_to_calendar_agent : AgentId := AgentId.calendar

/-- agents.py `transfer_to_social_media_agent` (lines 190-192). -/
def transfer_to_social_media_agent : AgentId := AgentId.socialMedia

/-- agents.py `transfer_to_music_agent` (lines 195-197). -/
def transfer_to_music_agent : AgentId := AgentId.music

/-- agents.py `transfer_back_to_base_agent` (lines 200-203). -/
def transfer_back_to_base_agent : AgentId := AgentId.base

/-- The agent returned by a transfer function, `none` for capability
functions (which return text payloads, not agent references). -/
def transferTarget : FuncRef → Option AgentId
  | .transfer_to_email_agent => some transfer_to_email_agent
  | .transfer_to_calendar_agent => some transfer_to_calendar_agent
  | .transfer_to_social_media_agent => some transfer_to_social_media_agent
  | .transfer_to_music_agent => some transfer_to_music_agent
  | .transfer_back_to_base_agent => some transfer_back_to_base_agent
  | _ => none

/-- True for the five transfer functions. -/
def isTransfer (f : FuncRef) : Bool := (transferTarget f).isSome

/-- An agent as constructed by `Agent(...)` in agents.py: its name and its
`functions` list (instruction templates are kept as the separate definitions
above, dispatched by `instructionsOf`). -/
structure Agent where
  name : String
  functions : List FuncRef
deriving Repr, DecidableEq

/-- `email_agent.functions` as given at construction (agents.py 137-142),
before the late append of line 212. -/
def email_agent_initial_functions : List FuncRef :=
  [.read_emails, .get_email_by_id, .search_for_emails, .write_email]

/-- `calendar_agent.functions` at construction (agents.py 149-154). -/
def calendar_agent_initial_functions : List FuncRef :=
  [.list_upcoming_events, .create_event, .delete_event, .update_event]

/-- `social_media_agent.functions` at construction (agents.py 161-163). -/
def social_media_agent_initial_functions : List FuncRef :=
  [.send_tweet]

/-- `music_agent.functions` at construction (agents.py 170-175). -/
def music_agent_initial_functions : List FuncRef :=
  [.play, .search, .get_current_track, .control_playback]

/-- `base_agent.functions` as assigned in agents.py lines 206-211. -/
def base_agent_functions : List FuncRef :=
  [.transfer_to_email_agent, .transfer_to_calendar_agent,
   .transfer_to_social_media_agent, .transfer_to_music_agent]

/-- One execution of the late registration step
`<specialist>.functions.append(transfer_back_to_base_agent)`
(agents.py lines 212-215): a plain list append. -/
def appendReturnToBase (fs : List FuncRef) : List FuncRef :=
  fs ++ [.transfer_back_to_base_agent]

/-- `email_agent.functions` after line 212 has run once. -/
def email_agent_functions : List FuncRef :=
  appendReturnToBase email_agent_initial_functions

/-- `calendar_agent.functions` after line 213 has run once. -/
def calendar_agent_functions : List FuncRef :=
  appendReturnToBase calendar_agent_initial_functions

/-- `social_media_agent.functions` after line 214 has run once. -/
def social_media_agent_functions : List FuncRef :=
  appendReturnToBase social_media_agent_initial_functions

/-- `music_agent.functions` after line 215 has run once. -/
def music_agent_functions : List FuncRef :=
  appendReturnToBase music_agent_initial_functions

/-- agents.py `base_agent` (lines 127-131, functions from 206-211). -/
def base_agent : Agent := ⟨"Base Assistant", base_agent_functions⟩

/-- agents.py `email_agent` (lines 133-143, plus line 212). -/
def email_agent : Agent := ⟨"Email Assistant", email_agent_functions⟩

/-- agents.py `calendar_agent` (lines 145-155, plus line 213). -/
def calendar_agent : Agent := ⟨"Calendar Assistant", calendar_agent_functions⟩

/-- agents.py `social_media_agent` (lines 157-164, plus line 214). -/
def social_media_agent : Agent := ⟨"Social Media Assistant", social_media_agent_functions⟩

/-- agents.py `music_agent` (lines 166-176, plus line 215). -/
def music_agent : Agent := ⟨"Music Assistant", music_agent_functions⟩

/-- The fully constructed registry. -/
def agentOf : AgentId → Agent
  | .base => base_agent
  | .email => email_agent
  | .calendar => calendar_agent
  | .socialMedia => social_media_agent
  | .music => music_agent

/-- The instruction template attached to each agent. -/
def instructionsOf : AgentId → Context → String → String
  | .base => base_assistant_instructions
  | .email => email_assistant_instructions
  | .calendar => calendar_assistant_instructions
  | .socialMedia => social_media_assistant_instructions
  | .music => music_assistant_instructions

/-- The four specialist agents, in construction order. -/
def specialists : List AgentId :=
  [AgentId.email, AgentId.calendar, AgentId.socialMedia, AgentId.music]

end Agents

/-! ## Google services backend (common.py `authenticate_gmail` and the
clients it returns) -/

namespace Gmail

/-- One entry of `payload['parts']`: its `mimeType` and the decoded text of
`part['body']['data']` (`none` when the data field is absent; Python treats
an empty data string as falsy, which the embedding checks explicitly). -/
structure GPart where
  mimeType : String
  bodyData : Option String
deriving Repr, DecidableEq

/-- `msg['payload']`: the headers (name, value) list, the optional
`parts` list and the optional decoded `body.data`. -/
structure GPayload where
  headers : List (String × String)
  parts : Option (List GPart)
  bodyData : Option String
deriving Repr, DecidableEq

/-- A message object as returned by `service.users().messages().get(...)`. -/
structure GMessage where
  payload : GPayload
  snippet : Option String
deriving Repr, DecidableEq

/-- The Gmail service object: each field is one operation the source performs
on it; `Except.error e` models the call raising an exception with text `e`.
`listMessages query maxResults` returns the ids of the listed messages;
`sendMessage raw` returns the sent message's id. -/
structure GmailService where
  listMessages : String → Nat → Except String (List String)
  getMessage : String → Except String GMessage
  sendMessage : String → Except String String

end Gmail

namespace Calendar

/-- `event['start']` / `event['end']`: optional `dateTime` and `date`. -/
structure EventTime where
  dateTime : Option String
  date : Option String
deriving Repr, DecidableEq

/-- A calendar event object as returned by the Calendar API.  `endTime`
embeds the `end` field (a Lean keyword).  Each attendee contributes its
optional `email` field. -/
structure CalendarEvent where
  id : String
  summary : Option String
  start : EventTime
  endTime : EventTime
  location : Option String
  description : Option String
  attendees : List (Option String)
deriving Repr, DecidableEq

/-- The request body built by `create_event`. -/
structure EventBody where
  summary : String
  startDateTime : String
  endDateTime : String
  description : Option String
  location : Option String
  attendees : Option (List String)
deriving Repr, DecidableEq

/-- The Calendar service object; operations as used by google_calendar.py.
`insertEvent` returns the created event's id. -/
structure CalendarService where
  listEvents : String → Nat → Except String (List CalendarEvent)
  insertEvent : EventBody → Except String String
  getEvent : String → Except String CalendarEvent
  updateEvent : String → CalendarEvent → Except String Unit
  deleteEvent : String → Except String Unit

end Calendar

/-- The environment of common.py and the datetime library as seen by
gmail.py and google_calendar.py:

* `authenticate` embeds `authenticate_gmail()` — it returns the Gmail and
  Calendar service pair, or raises (`Except.error`), e.g. when the
  credentials file is missing or the OAuth flow fails;
* `mimeRaw to sender subject body` embeds building the `MIMEText` message
  and base64-url-encoding it (pure library code);
* `utcNow` is `datetime.utcnow().isoformat()` at the moment of the call;
* `parseToUtc s` embeds `datetime.fromisoformat(s)` followed by conversion
  to a UTC string; `Except.error e` models the `ValueError` branch. -/
structure GoogleEnv where
  authenticate : Except String (Gmail.GmailService × Calendar.CalendarService)
  mimeRaw : String → String → String → String → String
  utcNow : String
  parseToUtc : String → Except String String

namespace Gmail

/-- The `next((h['value'] for h in headers if h['name'].lower() == name),
default)` idiom used for subject/from/date extraction. -/
def headerValue (headers : List (String × String)) (name defaultVal : String) : String :=
  match headers.find? (fun h => h.1.toLower == name) with
  | some h => h.2
  | none => defaultVal

/-- The snippet/body escaping performed inline by gmail.py (lines 57, 110,
194): replace the ampersand first, then the angle brackets. -/
def escapeText (s : String) : String :=
  ((s.replace "&" "&amp;").replace "<" "&lt;").replace ">" "&gt;"

/-- One `<email>...</email>` entry of read_emails / search_for_emails
(gmail.py lines 44-60 and 97-113): the id comes from the list result, the
sender and subject are embedded raw, the snippet is escaped. -/
def emailEntry (email_id : String) (msg : GMessage) : String :=
  let subject := headerValue msg.payload.headers "subject" "No subject"
  let sender := headerValue msg.payload.headers "from" "Unknown sender"
  let snippet := msg.snippet.getD "No snippet available"
  let snippet := escapeText snippet
  "<email><id>" ++ email_id ++ "</id><from>" ++ sender ++ "</from><subject>" ++
    subject ++ "</subject><snippet>" ++ snippet ++ "</snippet></email>"

/-- The per-message fetch loop shared by read_emails and search_for_emails:
`service.users().messages().get(userId='me', id=message['id']).execute()`
for each listed id, paired with that id; the first raising call aborts. -/
def fetchAll (service : GmailService) : List String → Except String (List (String × GMessage))
  | [] => .ok []
  | i :: is =>
    match service.getMessage i with
    | .error e => .error e
    | .ok m =>
      match fetchAll service is with
      | .error e => .error e
      | .ok rest => .ok ((i, m) :: rest)

/-- The query built by read_emails (gmail.py lines 30-32).  `if date_filter:`
is Python truthiness: `None` and the empty string both skip the branch. -/
def read_emails_query (unread : Bool) (date_filter : Option String) : String :=
  let query := if unread then "is:unread" else ""
  if (date_filter.getD "") = "" then query else query ++ " " ++ date_filter.getD ""

/-- The try-block of read_emails (gmail.py lines 29-68): every exception
raised inside is caught and rendered as an error payload string. -/
def read_emails_try (service : GmailService) (unread : Bool) (number_of_emails : Nat)
    (date_filter : Option String) : String :=
  match service.listMessages (read_emails_query unread date_filter) number_of_emails with
  | .error e => "<result><error>Error reading emails: " ++ e ++ "</error></result>"
  | .ok messages =>
    match messages with
    | [] =>
      "<result><message>No " ++ (if unread then "unread " else "") ++
        "emails found.</message></result>"
    | _ :: _ =>
      match fetchAll service messages with
      | .error e => "<result><error>Error reading emails: " ++ e ++ "</error></result>"
      | .ok pairs =>
        "<result>\n" ++
          String.intercalate "\n" (pairs.map (fun p => emailEntry p.1 p.2)) ++
          "\n</result>"

/-- gmail.py `read_emails` (lines 15-68).  `authenticate_gmail()` runs
before the try-block, so its exceptions propagate (`Except.error`). -/
def read_emails (env : GoogleEnv) (_context_variables : Context) (unread : Bool)
    (number_of_emails : Nat) (date_filter : Option String) : Except String String :=
  match env.authenticate with
  | .error e => .error e
  | .ok (service, _) => .ok (read_emails_try service unread number_of_emails date_filter)

/-- The try-block of search_for_emails (gmail.py lines 85-121).  The entries
are joined with the empty separator (line 115), unlike read_emails. -/
def search_for_emails_try (service : GmailService) (query : String) (max_results : Nat) : String :=
  match service.listMessages query max_results with
  | .error e => "<result><error>Error searching emails: " ++ e ++ "</error></result>"
  | .ok messages =>
    match messages with
    | [] =>
      "<result><message>No emails found matching the query: \x27" ++ query ++
        "\x27</message></result>"
    | _ :: _ =>
      match fetchAll service messages with
      | .error e => "<result><error>Error searching emails: " ++ e ++ "</error></result>"
      | .ok pairs =>
        "<result>\n" ++
          String.intercalate "" (pairs.map (fun p => emailEntry p.1 p.2)) ++
          "\n</result>"

/-- gmail.py `search_for_emails` (lines 71-121). -/
def search_for_emails (env : GoogleEnv) (_context_variables : Context) (query : String)
    (max_results : Nat) (_date_filter : Option String) : Except String String :=
  match env.authenticate with
  | .error e => .error e
  | .ok (service, _) => .ok (search_for_emails_try service query max_results)

/-- gmail.py `write_email` (lines 124-160).  The MIME construction and send
happen in the try-block; `user_email` is read from the context with the
documented default. -/
def write_email (env : GoogleEnv) (context_variables : Context)
    (toAddr subject body : String) : Except String String :=
  let user_email := context_variables.email.getD "unknown@example.com"
  match env.authenticate with
  | .error e => .error e
  | .ok (service, _) =>
    .ok (match service.sendMessage (env.mimeRaw toAddr user_email subject body) with
      | .error e => "<result><error>Error sending email: " ++ e ++ "</error></result>"
      | .ok msgId =>
        "<result><message>Email sent successfully. Message ID: " ++ msgId ++
          "</message></result>")

/-- The body extraction of get_email_by_id (gmail.py lines 183-191): the
first `text/plain` part with non-empty (truthy) data, else the top-level
body data when present and truthy, else "No content". -/
def extractBody (payload : GPayload) : String :=
  match payload.parts with
  | some parts =>
    match parts.find? (fun part => part.mimeType == "text/plain" && part.bodyData.getD "" != "") with
    | some part => part.bodyData.getD ""
    | none => "No content"
  | none =>
    match payload.bodyData with
    | some d => if d = "" then "No content" else d
    | none => "No content"

/-- The try-block of get_email_by_id (gmail.py lines 174-210): the body is
escaped, the sender, subject and date headers are embedded raw. -/
def get_email_by_id_try (service : GmailService) (email_id : String) : String :=
  match service.getMessage email_id with
  | .error e =>
    "<result><error>Error retrieving email with ID " ++
      (email_id ++ (": " ++ (e ++ "</error></result>")))
  | .ok msg =>
    let subject := headerValue msg.payload.headers "subject" "No subject"
    let sender := headerValue msg.payload.headers "from" "Unknown sender"
    let date := headerValue msg.payload.headers "date" "Unknown date"
    let body := escapeText (extractBody msg.payload)
    "<result>\n<email>\n  <id>" ++ email_id ++ "</id>\n  <from>" ++ sender ++
      "</from>\n  <subject>" ++ subject ++ "</subject>\n  <date>" ++ date ++
      "</date>\n  <body>" ++ body ++ "</body>\n</email>\n</result>"

/-- gmail.py `get_email_by_id` (lines 163-210). -/
def get_email_by_id (env : GoogleEnv) (_context_variables : Context)
    (email_id : String) : Except String String :=
  match env.authenticate with
  | .error e => .error e
  | .ok (service, _) => .ok (get_email_by_id_try service email_id)

end Gmail

namespace Calendar

/-- One `<event>...</event>` entry of list_upcoming_events (google_calendar.py
lines 52-66), including the nested
`event['start'].get('dateTime', event['start'].get('date'))` lookup whose
double miss renders Python's `None`. -/
def eventEntry (event : CalendarEvent) : String :=
  let start :=
    match event.start.dateTime with
    | some s => s
    | none => match event.start.date with | some d => d | none => "None"
  let endVal :=
    match event.endTime.dateTime with
    | some s => s
    | none => match event.endTime.date with | some d => d | none => "None"
  let attendee_list := event.attendees.filterMap id
  "<event>\n    <id>" ++ event.id ++ "</id>\n    <summary>" ++
    event.summary.getD "No title" ++ "</summary>\n    <start>" ++ start ++
    "</start>\n    <end>" ++ endVal ++ "</end>\n    <location>" ++
    event.location.getD "No location" ++ "</location>\n    <description>" ++
    event.description.getD "No description" ++ "</description>\n    <attendees>" ++
    String.intercalate ", " attendee_list ++ "</attendees>\n</event>"

/-- The try-block of list_upcoming_events (google_calendar.py lines 26-74):
the `ValueError` of the time conversion is handled by its own inner
try/except and produces the invalid-time payload. -/
def list_upcoming_events_try (env : GoogleEnv) (service : CalendarService)
    (max_results : Nat) (time_min : Option String) : String :=
  let timeMin : Except String String :=
    if (time_min.getD "") = "" then .ok (env.utcNow ++ "Z")
    else env.parseToUtc (time_min.getD "")
  match timeMin with
  | .error e => "<result><error>Invalid time format: " ++ e ++ "</error></result>"
  | .ok tmin =>
    match service.listEvents tmin max_results with
    | .error e => "<result><error>Error listing events: " ++ e ++ "</error></result>"
    | .ok events =>
      match events with
      | [] => "<result><message>No upcoming events found.</message></result>"
      | _ :: _ =>
        "<result>\n" ++ String.intercalate "" (events.map eventEntry) ++ "\n</result>"

/-- google_calendar.py `list_upcoming_events` (lines 13-74).  The Calendar
service is the second component of `authenticate_gmail()`, obtained before
the try-block. -/
def list_upcoming_events (env : GoogleEnv) (_context_variables : Context)
    (max_results : Nat) (time_min : Option String) : Except String String :=
  match env.authenticate with
  | .error e => .error e
  | .ok (_, service) => .ok (list_upcoming_events_try env service max_results time_min)

/-- The event body built by create_event (google_calendar.py lines 96-107);
`if description:` etc. are Python truthiness checks, so empty strings are
dropped like `None`. -/
def buildEventBody (summary start_time end_time : String)
    (description location attendees : Option String) : EventBody :=
  { summary := summary
    startDateTime := start_time
    endDateTime := end_time
    description := if (description.getD "") = "" then none else description
    location := if (location.getD "") = "" then none else location
    attendees :=
      if (attendees.getD "") = "" then none
      else some ((attendees.getD "").splitOn ",") }

/-- google_calendar.py `create_event` (lines 77-117). -/
def create_event (env : GoogleEnv) (_context_variables : Context)
    (summary start_time end_time : String)
    (description location attendees : Option String) : Except String String :=
  match env.authenticate with
  | .error e => .error e
  | .ok (_, service) =>
    .ok (match service.insertEvent
          (buildEventBody summary start_time end_time description location attendees) with
      | .error e => "<result><error>Error creating event: " ++ e ++ "</error></result>"
      | .ok eventId =>
        "<result><message>Event created successfully. Event ID: " ++ eventId ++
          "</message></result>")

/-- google_calendar.py `delete_event` (lines 120-139). -/
def delete_event (env : GoogleEnv) (_context_variables : Context)
    (event_id : String) : Except String String :=
  match env.authenticate with
  | .error e => .error e
  | .ok (_, service) =>
    .ok (match service.deleteEvent event_id with
      | .error e => "<result><error>Error deleting event: " ++ e ++ "</error></result>"
      | .ok _ =>
        "<result><message>Event " ++ event_id ++ " deleted successfully.</message></result>")

/-- The field updates performed by update_event on the fetched event object
(google_calendar.py lines 165-177); each guard is Python truthiness. -/
def applyUpdates (event : CalendarEvent)
    (summary start_time end_time description location attendees : Option String) :
    CalendarEvent :=
  let event := if (summary.getD "") = "" then event else { event with summary := summary }
  let event :=
    if (start_time.getD "") = "" then event
    else { event with start := { event.start with dateTime := start_time } }
  let event :=
    if (end_time.getD "") = "" then event
    else { event with endTime := { event.endTime with dateTime := end_time } }
  let event :=
    if (description.getD "") = "" then event else { event with description := description }
  let event :=
    if (location.getD "") = "" then event else { event with location := location }
  if (attendees.getD "") = "" then event
  else { event with attendees := ((attendees.getD "").splitOn ",").map some }

/-- google_calendar.py `update_event` (lines 142-191): fetch the event,
update the provided fields, send the update; any raising step inside the
try-block yields the error payload. -/
def update_event (env : GoogleEnv) (_context_variables : Context) (event_id : String)
    (summary start_time end_time description location attendees : Option String) :
    Except String String :=
  match env.authenticate with
  | .error e => .error e
  | .ok (_, service) =>
    .ok (match service.getEvent event_id with
      | .error e => "<result><error>Error updating event: " ++ e ++ "</error></result>"
      | .ok event =>
        match service.updateEvent event_id
            (applyUpdates event summary start_time end_time description location attendees) with
        | .error e => "<result><error>Error updating event: " ++ e ++ "</error></result>"
        | .ok _ =>
          "<result><message>Event " ++ event_id ++ " updated successfully.</message></result>")

end Calendar

/-! ## Twitter (x.py) -/

namespace X

/-- The tweepy client: `create_tweet(text=...)` returns the new tweet's id
(`response.data['id']`), or raises. -/
structure TwitterClient where
  createTweet : String → Except String String

/-- x.py `authenticate_twitter` (lines 9-29) as an environment: building the
client can raise (modelled by `Except.error`). -/
structure TwitterEnv where
  authenticate : Except String TwitterClient

/-- x.py `send_tweet` (lines 31-50).  `authenticate_twitter()` runs before
the try-block, so its exceptions propagate. -/
def send_tweet (env : TwitterEnv) (_context_variables : Context)
    (tweet_content : String) : Except String String :=
  match env.authenticate with
  | .error e => .error e
  | .ok client =>
    .ok (match client.createTweet tweet_content with
      | .error e => "<result><error>Error sending tweet: " ++ e ++ "</error></result>"
      | .ok tweetId =>
        "<result><message>Tweet sent successfully. Tweet ID: " ++ tweetId ++
          "</message></result>")

end X

/-! ## Spotify (spotify.py) -/

namespace Spotify

/-- An item of a Spotify search response, holding every field the source
reads (`item['name']`, `item['artists'][0]['name']`, `item['album']['name']`,
`item['duration_ms']`, `item['uri']`, `item['total_tracks']`,
`item['popularity']`, `item['owner']['display_name']`,
`item['tracks']['total']`, `item['publisher']`). -/
structure Item where
  name : String
  artistName : String
  albumName : String
  durationMs : Nat
  uri : String
  totalTracks : Nat
  popularity : Nat
  ownerName : String
  tracksTotal : Nat
  publisher : String
deriving Repr, DecidableEq

/-- The object returned by `sp.current_playback()` when something is
playing: the optional current item, `progress_ms` and `is_playing`. -/
structure Playback where
  item : Option Item
  progressMs : Nat
  isPlaying : Bool
deriving Repr, DecidableEq

/-- The spotipy client: one field per API call the source performs.
`searchApi q ty limit` returns `results[ty + 's']['items']`. -/
structure SpotifyClient where
  searchApi : String → String → Nat → Except String (List Item)
  startPlaybackUris : List String → Except String Unit
  startPlaybackContext : String → Except String Unit
  startPlayback : Except String Unit
  pausePlayback : Except String Unit
  nextTrack : Except String Unit
  previousTrack : Except String Unit
  currentPlayback : Except String (Option Playback)

/-- spotify.py `get_spotify_client` (lines 15-52) as an environment:
acquiring the client either succeeds or re-raises its exception. -/
structure SpotifyEnv where
  getClient : Except String SpotifyClient

/-- A record of which Spotify API calls a function performed, in order. -/
inductive SpotifyCall
  | searchCall (q ty : String) (limit : Nat)
  | startUris (uris : List String)
  | startContext (uri : String)
  | startCall
  | pauseCall
  | nextCall
  | previousCall
  | currentCall
deriving Repr, DecidableEq

/-- `valid_types` of `play` (spotify.py line 68); the set literal is joined
into the error message in this fixed order. -/
def playValidTypes : List String := ["track", "album", "artist", "playlist"]

/-- The error payload of the except-branch of `play` (spotify.py line 126). -/
def playError (content_type e : String) : String :=
  "<result><error>Error playing " ++ content_type ++ ": " ++ e ++ "</error></result>"

/-- The track success payload of `play` (spotify.py lines 84-92). -/
def trackInfoResult (item : Item) : String :=
  "<result>\n<message>Now playing track: " ++ item.name ++ " by " ++ item.artistName ++
    "</message>\n<track_info>\n    <name>" ++ item.name ++ "</name>\n    <artist>" ++
    item.artistName ++ "</artist>\n    <album>" ++ item.albumName ++
    "</album>\n    <duration>" ++ toString item.durationMs ++
    "</duration>\n</track_info>\n</result>"

/-- The album success payload of `play` (spotify.py lines 95-102). -/
def albumInfoResult (item : Item) : String :=
  "<result>\n<message>Now playing album: " ++ item.name ++ " by " ++ item.artistName ++
    "</message>\n<album_info>\n    <name>" ++ item.name ++ "</name>\n    <artist>" ++
    item.artistName ++ "</artist>\n    <total_tracks>" ++ toString item.totalTracks ++
    "</total_tracks>\n</album_info>\n</result>"

/-- The artist success payload of `play` (spotify.py lines 105-111). -/
def artistInfoResult (item : Item) : String :=
  "<result>\n<message>Now playing top tracks from artist: " ++ item.name ++
    "</message>\n<artist_info>\n    <name>" ++ item.name ++ "</name>\n    <popularity>" ++
    toString item.popularity ++ "</popularity>\n</artist_info>\n</result>"

/-- The playlist success payload of `play` (spotify.py lines 114-121). -/
def playlistInfoResult (item : Item) : String :=
  "<result>\n<message>Now playing playlist: " ++ item.name ++
    "</message>\n<playlist_info>\n    <name>" ++ item.name ++ "</name>\n    <owner>" ++
    item.ownerName ++ "</owner>\n    <tracks_total>" ++ toString item.tracksTotal ++
    "</tracks_total>\n</playlist_info>\n</result>"

/-- The try-block of `play` (spotify.py lines 66-128), paired with the list
of Spotify API calls it performed.  Validation runs before any API call;
the final `else` is unreachable for validated types. -/
def play_try (sp : SpotifyClient) (query content_type : String) :
    String × List SpotifyCall :=
  if playValidTypes.contains content_type = false then
    ("<result><error>Invalid content type: \x27" ++ content_type ++
      "\x27. Valid types are: track, album, artist, playlist</error></result>", [])
  else
    let calls0 := [SpotifyCall.searchCall query content_type 1]
    match sp.searchApi query content_type 1 with
    | .error e => (playError content_type e, calls0)
    | .ok items =>
      match items with
      | [] =>
        ("<result><error>No " ++ content_type ++ " found matching: \x27" ++ query ++
          "\x27</error></result>", calls0)
      | item :: _ =>
        if content_type = "track" then
          match sp.startPlaybackUris [item.uri] with
          | .error e => (playError content_type e, calls0 ++ [.startUris [item.uri]])
          | .ok _ => (trackInfoResult item, calls0 ++ [.startUris [item.uri]])
        else if content_type = "album" then
          match sp.startPlaybackContext item.uri with
          | .error e => (playError content_type e, calls0 ++ [.startContext item.uri])
          | .ok _ => (albumInfoResult item, calls0 ++ [.startContext item.uri])
        else if content_type = "artist" then
          match sp.startPlaybackContext item.uri with
          | .error e => (playError content_type e, calls0 ++ [.startContext item.uri])
          | .ok _ => (artistInfoResult item, calls0 ++ [.startContext item.uri])
        else if content_type = "playlist" then
          match sp.startPlaybackContext item.uri with
          | .error e => (playError content_type e, calls0 ++ [.startContext item.uri])
          | .ok _ => (playlistInfoResult item, calls0 ++ [.startContext item.uri])
        else ("", calls0)

/-- spotify.py `play` (lines 54-128).  `get_spotify_client()` runs before
the try-block, so a failed client acquisition propagates. -/
def play (env : SpotifyEnv) (_context_variables : Context)
    (query content_type : String) : Except String (String × List SpotifyCall) :=
  match env.getClient with
  | .error e => .error e
  | .ok sp => .ok (play_try sp query content_type)

/-- The try-block of `get_current_track` (spotify.py lines 140-162). -/
def get_current_track_try (sp : SpotifyClient) : String × List SpotifyCall :=
  match sp.currentPlayback with
  | .error e =>
    ("<result><error>Error getting current track: " ++ e ++ "</error></result>",
      [SpotifyCall.currentCall])
  | .ok current =>
    match current with
    | none =>
      ("<result><message>No track currently playing</message></result>",
        [SpotifyCall.currentCall])
    | some playback =>
      match playback.item with
      | none =>
        ("<result><message>No track currently playing</message></result>",
          [SpotifyCall.currentCall])
      | some track =>
        ("<result>\n<track_info>\n    <name>" ++ track.name ++ "</name>\n    <artist>" ++
          track.artistName ++ "</artist>\n    <album>" ++ track.albumName ++
          "</album>\n    <progress>" ++ toString playback.progressMs ++
          "</progress>\n    <duration>" ++ toString track.durationMs ++
          "</duration>\n    <is_playing>" ++
          (if playback.isPlaying then "True" else "False") ++
          "</is_playing>\n</track_info>\n</result>", [SpotifyCall.currentCall])

/-- spotify.py `get_current_track` (lines 130-162). -/
def get_current_track (env : SpotifyEnv) (_context_variables : Context) :
    Except String (String × List SpotifyCall) :=
  match env.getClient with
  | .error e => .error e
  | .ok sp => .ok (get_current_track_try sp)

/-- The try-block of `control_playback` (spotify.py lines 175-197): the
action is dispatched by string equality; an unrecognized action returns the
invalid-action payload before any API call. -/
def control_playback_try (sp : SpotifyClient) (action : String) :
    String × List SpotifyCall :=
  let controlError (e : String) : String :=
    "<result><error>Error controlling playback: " ++ e ++ "</error></result>"
  if action = "play" then
    match sp.startPlayback with
    | .error e => (controlError e, [SpotifyCall.startCall])
    | .ok _ => ("<result><message>Playback started</message></result>", [SpotifyCall.startCall])
  else if action = "pause" then
    match sp.pausePlayback with
    | .error e => (controlError e, [SpotifyCall.pauseCall])
    | .ok _ => ("<result><message>Playback paused</message></result>", [SpotifyCall.pauseCall])
  else if action = "next" then
    match sp.nextTrack with
    | .error e => (controlError e, [SpotifyCall.nextCall])
    | .ok _ =>
      ("<result><message>Skipped to next track</message></result>", [SpotifyCall.nextCall])
  else if action = "previous" then
    match sp.previousTrack with
    | .error e => (controlError e, [SpotifyCall.previousCall])
    | .ok _ =>
      ("<result><message>Returned to previous track</message></result>",
        [SpotifyCall.previousCall])
  else ("<result><error>Invalid action: " ++ action ++ "</error></result>", [])

/-- spotify.py `control_playback` (lines 164-197). -/
def control_playback (env : SpotifyEnv) (_context_variables : Context)
    (action : String) : Except String (String × List SpotifyCall) :=
  match env.getClient with
  | .error e => .error e
  | .ok sp => .ok (control_playback_try sp action)

/-- `valid_types` of `search` (spotify.py line 214), in the order joined
into the error message. -/
def searchValidTypes : List String :=
  ["album", "artist", "playlist", "track", "show", "episode", "audiobook"]

/-- One item block of `search` (spotify.py lines 227-260), selected by
`search_type`; the final branch covers show/episode/audiobook. -/
def searchItemInfo (search_type : String) (item : Item) : String :=
  if search_type = "track" then
    "<track>\n    <name>" ++ item.name ++ "</name>\n    <artist>" ++ item.artistName ++
      "</artist>\n    <album>" ++ item.albumName ++ "</album>\n    <duration>" ++
      toString item.durationMs ++ "</duration>\n    <uri>" ++ item.uri ++
      "</uri>\n</track>"
  else if search_type = "album" then
    "<album>\n    <name>" ++ item.name ++ "</name>\n    <artist>" ++ item.artistName ++
      "</artist>\n    <total_tracks>" ++ toString item.totalTracks ++
      "</total_tracks>\n    <uri>" ++ item.uri ++ "</uri>\n</album>"
  else if search_type = "artist" then
    "<artist>\n    <name>" ++ item.name ++ "</name>\n    <popularity>" ++
      toString item.popularity ++ "</popularity>\n    <uri>" ++ item.uri ++
      "</uri>\n</artist>"
  else if search_type = "playlist" then
    "<playlist>\n    <name>" ++ item.name ++ "</name>\n    <owner>" ++ item.ownerName ++
      "</owner>\n    <tracks_total>" ++ toString item.tracksTotal ++
      "</tracks_total>\n    <uri>" ++ item.uri ++ "</uri>\n</playlist>"
  else
    "<" ++ search_type ++ ">\n    <name>" ++ item.name ++ "</name>\n    <publisher>" ++
      item.publisher ++ "</publisher>\n    <uri>" ++ item.uri ++ "</uri>\n</" ++
      search_type ++ ">"

/-- The try-block of `search` (spotify.py lines 212-270): validation runs
before the API call; the item blocks are joined with the empty separator. -/
def search_try (sp : SpotifyClient) (query search_type : String) (limit : Nat) :
    String × List SpotifyCall :=
  if searchValidTypes.contains search_type = false then
    ("<result><error>Invalid search type: \x27" ++ search_type ++
      "\x27. Valid types are: album, artist, playlist, track, show, episode, audiobook</error></result>",
      [])
  else
    match sp.searchApi query search_type limit with
    | .error e =>
      ("<result><error>Error searching " ++ search_type ++ "s: " ++ e ++ "</error></result>",
        [SpotifyCall.searchCall query search_type limit])
    | .ok items =>
      match items with
      | [] =>
        ("<result><message>No " ++ search_type ++ "s found matching: \x27" ++ query ++
          "\x27</message></result>", [SpotifyCall.searchCall query search_type limit])
      | _ :: _ =>
        ("<result>\n" ++ String.intercalate "" (items.map (searchItemInfo search_type)) ++
          "\n</result>", [SpotifyCall.searchCall query search_type limit])

/-- spotify.py `search` (lines 199-270). -/
def search (env : SpotifyEnv) (_context_variables : Context)
    (query search_type : String) (limit : Nat) :
    Except String (String × List SpotifyCall) :=
  match env.getClient with
  | .error e => .error e
  | .ok sp => .ok (search_try sp query search_type limit)

end Spotify

/-! ## Dispatcher / router loop -/

namespace Dispatcher

/-- Modelled from the spec: the dispatcher/router loop itself lives in the
third-party swarm package (`swarm.repl.run_demo_loop`, invoked from
src/run.py line 16) and is not part of src/, so it is modelled from spec
section 4.3: one model response per turn, either a plain reply or a list of
requested function invocations. -/
inductive ModelOutput
  | reply (text : String)
  | calls (names : List String)

/-- Modelled from the spec: the collaborators of the loop — the underlying
language model (a function of the active agent and the history) and the
capability functions (an observation payload per invocation name). -/
structure DispatchEnv where
  model : Agents.AgentId → List String → ModelOutput
  callCapability : String → String

/-- Modelled from the spec: the per-session ConversationState
(section 3) — active agent plus append-only message history. -/
structure DispatchState where
  active : Agents.AgentId
  history : List String

/-- Modelled from the spec: how a session turn ends — a plain reply, the
LoopBoundExceeded safety bound (section 7 (d)), or the fatal
UnknownFunctionError (section 7 (b)). -/
inductive DispatchResult
  | reply (text : String)
  | loopBoundExceeded
  | unknownFunction (name : String)
deriving Repr, DecidableEq

/-- Modelled from the spec (section 4.3, function dispatch and transfer
semantics): execute the requested invocations in order; a name outside the
active agent's function list is fatal; a transfer function switches the
active agent for subsequent turns; a capability invocation appends its
observation to the history. -/
def execCalls (env : DispatchEnv) :
    List String → DispatchState → Except String DispatchState
  | [], st => .ok st
  | name :: rest, st =>
    match (Agents.agentOf st.active).functions.find?
        (fun f => Agents.funcName f == name) with
    | none => .error name
    | some f =>
      match Agents.transferTarget f with
      | some target => execCalls env rest ⟨target, st.history⟩
      | none => execCalls env rest ⟨st.active, st.history ++ [env.callCapability name]⟩

/-- Modelled from the spec (sections 4.3 and 7 (d)): the dispatcher loop
with its turn safety bound.  Each recursive step consumes one unit of the
bound and performs exactly one model invocation; the returned `Nat` counts
the model invocations performed.  The loop ends with a plain reply, with
`unknownFunction` on a protocol violation, or with `loopBoundExceeded` once
the bound is exhausted. -/
def runLoop (env : DispatchEnv) (st : DispatchState) : Nat → DispatchResult × Nat
  | 0 => (DispatchResult.loopBoundExceeded, 0)
  | Nat.succ fuel =>
    match env.model st.active st.history with
    | ModelOutput.reply t => (DispatchResult.reply t, 1)
    | ModelOutput.calls names =>
      match execCalls env names st with
      | .error name => (DispatchResult.unknownFunction name, 1)
      | .ok st2 =>
        let r := runLoop env st2 fuel
        (r.1, r.2 + 1)

end Dispatcher

/-! ## Theorems -/

/-- Claim C2: the transfer graph over the agent registry is exactly a star:
the base agent's function list consists of exactly one transfer function per
specialist (email, calendar, social-media, music), each specialist's
function list contains transfer_back_to_base_agent as its only transfer
function, and no specialist's function list contains a transfer function
returning another specialist. -/
theorem c2_transfer_graph_star :
    Agents.base_agent.functions.filterMap Agents.transferTarget =
      [Agents.AgentId.email, Agents.AgentId.calendar, Agents.AgentId.socialMedia,
        Agents.AgentId.music]
    ∧ Agents.base_agent.functions.filter Agents.isTransfer = Agents.base_agent.functions
    ∧ Agents.specialists.map
        (fun a => (Agents.agentOf a).functions.filter Agents.isTransfer) =
      [[Agents.FuncRef.transfer_back_to_base_agent],
        [Agents.FuncRef.transfer_back_to_base_agent],
        [Agents.FuncRef.transfer_back_to_base_agent],
        [Agents.FuncRef.transfer_back_to_base_agent]] := by decide

/-- Counterexample to claim C3: the "append the return-to-base transfer"
step is a plain list append; performing it twice on the email agent's
initial function list produces TWO entries named
"transfer_back_to_base_agent", contradicting the claimed at-most-once
outcome of a double registration. -/
theorem c3_counterexample :
    ((Agents.appendReturnToBase
        (Agents.appendReturnToBase Agents.email_agent_initial_functions)).map
      Agents.funcName).count "transfer_back_to_base_agent" = 2 := by decide

/-- Claim C3 as amended: registry construction is NOT idempotent — running
the append step twice yields two entries with the same name for every
specialist; in the registry as actually constructed the step runs exactly
once per specialist, so each specialist's function list contains exactly one
entry named "transfer_back_to_base_agent". -/
theorem c3_amended :
    Agents.specialists.map
        (fun a => ((Agents.agentOf a).functions.map Agents.funcName).count
          "transfer_back_to_base_agent") = [1, 1, 1, 1]
    ∧ Agents.specialists.map
        (fun a => ((Agents.appendReturnToBase (Agents.agentOf a).functions).map
          Agents.funcName).count "transfer_back_to_base_agent") = [2, 2, 2, 2] := by
  decide

/-- Claim C5: every transfer function is a zero-argument constant returning
the same fixed target agent on every call (the embeddings are literal
constants, so purity and per-call stability are structural); in particular
transfer_to_email_agent returns the agent named "Email Assistant" and
transfer_back_to_base_agent returns the base agent. -/
theorem c5_transfer_functions_fixed_targets :
    Agents.transfer_to_email_agent = Agents.AgentId.email
    ∧ (Agents.agentOf Agents.transfer_to_email_agent).name = "Email Assistant"
    ∧ Agents.transfer_to_calendar_agent = Agents.AgentId.calendar
    ∧ (Agents.agentOf Agents.transfer_to_calendar_agent).name = "Calendar Assistant"
    ∧ Agents.transfer_to_social_media_agent = Agents.AgentId.socialMedia
    ∧ (Agents.agentOf Agents.transfer_to_social_media_agent).name = "Social Media Assistant"
    ∧ Agents.transfer_to_music_agent = Agents.AgentId.music
    ∧ (Agents.agentOf Agents.transfer_to_music_agent).name = "Music Assistant"
    ∧ Agents.transfer_back_to_base_agent = Agents.AgentId.base
    ∧ (Agents.agentOf Agents.transfer_back_to_base_agent).name = "Base Assistant" := by
  decide

/-- Counterexample to claim C4: the social-media agent does NOT substitute
the documented default "English" for its missing language key — the source
falls back to the literal "Polish" (agents.py line 93).  If "English" were
the substituted default, rendering the empty context would agree with
rendering a context whose tweet language is "English"; it does not. -/
theorem c4_counterexample :
    Agents.social_media_assistant_instructions emptyContext "2025-06-01T12:00:00" ≠
      Agents.social_media_assistant_instructions
        ⟨none, none, none, none, none, some "English", none⟩ "2025-06-01T12:00:00" := by
  decide

/-- Claim C4 as amended: for every agent in the registry, resolving its
instructions with the empty context returns a prompt (rendering is total,
so it cannot fail) and behaves exactly as if the documented defaults were
present — "User" for user_name, "English" for preferred_language, "N/A" for
location / email / twitter_username, the call-time clock reading for
current_datetime — EXCEPT that the social-media agent's missing
tweet_preferred_language falls back to "Polish", not "English". -/
theorem c4_amended (now : String) :
    Agents.base_assistant_instructions emptyContext now =
      Agents.base_assistant_instructions
        ⟨some "User", none, some "English", some "N/A", none, none, some now⟩ now
    ∧ Agents.email_assistant_instructions emptyContext now =
      Agents.email_assistant_instructions
        ⟨some "User", some "N/A", some "English", none, none, none, none⟩ now
    ∧ Agents.calendar_assistant_instructions emptyContext now =
      Agents.calendar_assistant_instructions
        ⟨some "User", none, some "English", some "N/A", none, none, some now⟩ now
    ∧ Agents.social_media_assistant_instructions emptyContext now =
      Agents.social_media_assistant_instructions
        ⟨some "User", none, none, none, some "N/A", some "Polish", none⟩ now
    ∧ Agents.music_assistant_instructions emptyContext now =
      Agents.music_assistant_instructions
        ⟨some "User", none, some "English", none, none, none, none⟩ now :=
  ⟨rfl, rfl, rfl, rfl, rfl⟩

/-- Witness for c4_amended at a concrete clock reading. -/
theorem c4_amended_witness :
    Agents.base_assistant_instructions emptyContext "2025-06-01T12:00:00" =
      Agents.base_assistant_instructions
        ⟨some "User", none, some "English", some "N/A", none, none,
          some "2025-06-01T12:00:00"⟩ "2025-06-01T12:00:00"
    ∧ Agents.email_assistant_instructions emptyContext "2025-06-01T12:00:00" =
      Agents.email_assistant_instructions
        ⟨some "User", some "N/A", some "English", none, none, none, none⟩
        "2025-06-01T12:00:00"
    ∧ Agents.calendar_assistant_instructions emptyContext "2025-06-01T12:00:00" =
      Agents.calendar_assistant_instructions
        ⟨some "User", none, some "English", some "N/A", none, none,
          some "2025-06-01T12:00:00"⟩ "2025-06-01T12:00:00"
    ∧ Agents.social_media_assistant_instructions emptyContext "2025-06-01T12:00:00" =
      Agents.social_media_assistant_instructions
        ⟨some "User", none, none, none, some "N/A", some "Polish", none⟩
        "2025-06-01T12:00:00"
    ∧ Agents.music_assistant_instructions emptyContext "2025-06-01T12:00:00" =
      Agents.music_assistant_instructions
        ⟨some "User", none, some "English", none, none, none, none⟩
        "2025-06-01T12:00:00" :=
  c4_amended "2025-06-01T12:00:00"

set_option maxRecDepth 8192 in
/-- Counterexample to claim C6: instruction resolution is NOT deterministic
for every fixed context — with the current_datetime key missing, the base
agent's template embeds the call-time clock reading
(`datetime.now().isoformat()`, agents.py line 31), so two renderings of the
same (empty) context at different instants differ. -/
theorem c6_counterexample :
    Agents.base_assistant_instructions emptyContext "2024-01-01T00:00:00" ≠
      Agents.base_assistant_instructions emptyContext "2024-01-01T00:00:01" := by
  decide

/-- Claim C6 as amended: for every context that carries the
current_datetime key, rendering any agent's instructions is independent of
the call-time clock reading, hence two runs with the same context produce
the identical prompt string (the email, social-media and music templates
never read the clock at all). -/
theorem c6_amended (cv : Context) (d now1 now2 : String)
    (h : cv.current_datetime = some d) :
    Agents.base_assistant_instructions cv now1 =
      Agents.base_assistant_instructions cv now2
    ∧ Agents.email_assistant_instructions cv now1 =
      Agents.email_assistant_instructions cv now2
    ∧ Agents.calendar_assistant_instructions cv now1 =
      Agents.calendar_assistant_instructions cv now2
    ∧ Agents.social_media_assistant_instructions cv now1 =
      Agents.social_media_assistant_instructions cv now2
    ∧ Agents.music_assistant_instructions cv now1 =
      Agents.music_assistant_instructions cv now2 := by
  refine ⟨?_, rfl, ?_, rfl, rfl⟩ <;>
    simp only [Agents.base_assistant_instructions,
      Agents.calendar_assistant_instructions, h, Option.getD_some]

/-- A context carrying a concrete current_datetime, for the c6 witness. -/
def c6Ctx : Context :=
  ⟨none, none, none, none, none, none, some "2025-06-01T12:00:00"⟩

/-- Witness for c6_amended: at a concrete context with current_datetime
set, two runs at different clock readings agree for all five agents. -/
theorem c6_amended_witness :
    Agents.base_assistant_instructions c6Ctx "t1" =
      Agents.base_assistant_instructions c6Ctx "t2"
    ∧ Agents.email_assistant_instructions c6Ctx "t1" =
      Agents.email_assistant_instructions c6Ctx "t2"
    ∧ Agents.calendar_assistant_instructions c6Ctx "t1" =
      Agents.calendar_assistant_instructions c6Ctx "t2"
    ∧ Agents.social_media_assistant_instructions c6Ctx "t1" =
      Agents.social_media_assistant_instructions c6Ctx "t2"
    ∧ Agents.music_assistant_instructions c6Ctx "t1" =
      Agents.music_assistant_instructions c6Ctx "t2" :=
  c6_amended c6Ctx "2025-06-01T12:00:00" "t1" "t2" rfl

/-- Spec-side escaping, as the spec words it: replace the ampersand with
"&amp;", the left angle bracket with "&lt;" and the right angle bracket
with "&gt;" (in that order), to be compared with the inline escaping of
gmail.py. -/
def escapeTextSpec (s : String) : String :=
  ((s.replace "&" "&amp;").replace "<" "&lt;").replace ">" "&gt;"

/-- Spec-side description of one read/search email entry: the id from the
listing, the sender and subject embedded WITHOUT escaping, the snippet
embedded through `escapeTextSpec`. -/
def emailEntrySpec (email_id : String) (msg : Gmail.GMessage) : String :=
  "<email><id>" ++ email_id ++ "</id><from>" ++
    Gmail.headerValue msg.payload.headers "from" "Unknown sender" ++ "</from><subject>" ++
    Gmail.headerValue msg.payload.headers "subject" "No subject" ++ "</subject><snippet>" ++
    escapeTextSpec (msg.snippet.getD "No snippet available") ++ "</snippet></email>"

/-- Spec-side description of the get_email_by_id success payload: sender,
subject and date headers embedded WITHOUT escaping, the body embedded
through `escapeTextSpec`. -/
def emailByIdPayloadSpec (email_id : String) (msg : Gmail.GMessage) : String :=
  "<result>\n<email>\n  <id>" ++ email_id ++ "</id>\n  <from>" ++
    Gmail.headerValue msg.payload.headers "from" "Unknown sender" ++ "</from>\n  <subject>" ++
    Gmail.headerValue msg.payload.headers "subject" "No subject" ++ "</subject>\n  <date>" ++
    Gmail.headerValue msg.payload.headers "date" "Unknown date" ++ "</date>\n  <body>" ++
    escapeTextSpec (Gmail.extractBody msg.payload) ++ "</body>\n</email>\n</result>"

/-- Claim C7: calling get_email_by_id with email_id = "abc123" against a
backend whose message-get raises (not-found) returns normally (`Except.ok`,
no exception escapes) with an error-tagged payload that mentions "abc123". -/
theorem c7_get_email_by_id_not_found (env : GoogleEnv) (cv : Context)
    (service : Gmail.GmailService) (cal : Calendar.CalendarService) (e : String)
    (hauth : env.authenticate = .ok (service, cal))
    (hget : service.getMessage "abc123" = .error e) :
    Gmail.get_email_by_id env cv "abc123" =
      .ok ("<result><error>Error retrieving email with ID " ++
        ("abc123" ++ (": " ++ (e ++ "</error></result>")))) := by
  simp only [Gmail.get_email_by_id, hauth, Gmail.get_email_by_id_try, hget]

/-- A Gmail service whose message-get always reports not-found. -/
def c7Service : Gmail.GmailService :=
  ⟨fun _ _ => .ok [], fun i => .error ("not found: " ++ i), fun _ => .ok "m1"⟩

/-- A Calendar service for the concrete environments below. -/
def witnessCalendarService : Calendar.CalendarService :=
  ⟨fun _ _ => .ok [], fun _ => .ok "e1", fun i => .error ("not found: " ++ i),
    fun _ _ => .ok (), fun _ => .ok ()⟩

/-- A Google environment that authenticates, with the not-found Gmail
service. -/
def c7Env : GoogleEnv :=
  ⟨.ok (c7Service, witnessCalendarService), fun _ _ _ _ => "raw",
    "2025-01-01T00:00:00", fun s => .ok s⟩

/-- Witness for c7_get_email_by_id_not_found at a concrete backend. -/
theorem c7_witness :
    Gmail.get_email_by_id c7Env emptyContext "abc123" =
      .ok ("<result><error>Error retrieving email with ID " ++
        ("abc123" ++ (": " ++ ("not found: abc123" ++ "</error></result>")))) :=
  c7_get_email_by_id_not_found c7Env emptyContext c7Service witnessCalendarService
    "not found: abc123" rfl rfl

/-- Claim C10: whenever read_emails, search_for_emails or get_email_by_id
successfully retrieves email content, the emitted payload embeds the
snippet (read/search) or body (get) through the &-then-angle-bracket
escaping, while the sender and subject header values are embedded without
that escaping — as stated by the spec-side entry descriptions
`emailEntrySpec` / `emailByIdPayloadSpec`. -/
theorem c10_snippet_body_escaping (env : GoogleEnv) (cv : Context)
    (service : Gmail.GmailService) (cal : Calendar.CalendarService)
    (unread : Bool) (n : Nat) (df : Option String) (q eid i : String)
    (ids : List String) (pairs : List (String × Gmail.GMessage)) (m : Gmail.GMessage)
    (hauth : env.authenticate = .ok (service, cal))
    (hlist : service.listMessages (Gmail.read_emails_query unread df) n = .ok (i :: ids))
    (hfetch : Gmail.fetchAll service (i :: ids) = .ok pairs)
    (hlist2 : service.listMessages q n = .ok (i :: ids))
    (hget : service.getMessage eid = .ok m) :
    Gmail.read_emails env cv unread n df =
      .ok ("<result>\n" ++ String.intercalate "\n"
        (pairs.map (fun p => emailEntrySpec p.1 p.2)) ++ "\n</result>")
    ∧ Gmail.search_for_emails env cv q n df =
      .ok ("<result>\n" ++ String.intercalate ""
        (pairs.map (fun p => emailEntrySpec p.1 p.2)) ++ "\n</result>")
    ∧ Gmail.get_email_by_id env cv eid = .ok (emailByIdPayloadSpec eid m) := by
  refine ⟨?_, ?_, ?_⟩
  · simp only [Gmail.read_emails, hauth, Gmail.read_emails_try, hlist, hfetch]
    rfl
  · simp only [Gmail.search_for_emails, hauth, Gmail.search_for_emails_try, hlist2, hfetch]
    rfl
  · simp only [Gmail.get_email_by_id, hauth, Gmail.get_email_by_id_try, hget]
    rfl

/-- A concrete message whose snippet and headers contain the characters
that need escaping. -/
def c10Msg : Gmail.GMessage :=
  ⟨⟨[("From", "alice@example.com"), ("Subject", "Hi & <hello>")], none, none⟩,
    some "a <b> & c"⟩

/-- A Gmail service that lists one message id and returns `c10Msg` for it. -/
def c10Service : Gmail.GmailService :=
  ⟨fun _ _ => .ok ["id1"], fun _ => .ok c10Msg, fun _ => .ok "m1"⟩

/-- A Google environment around `c10Service`. -/
def c10Env : GoogleEnv :=
  ⟨.ok (c10Service, witnessCalendarService), fun _ _ _ _ => "raw",
    "2025-01-01T00:00:00", fun s => .ok s⟩

/-- Witness for c10_snippet_body_escaping at a concrete backend. -/
theorem c10_witness :
    Gmail.read_emails c10Env emptyContext true 30 none =
      .ok ("<result>\n" ++ String.intercalate "\n"
        ([("id1", c10Msg)].map (fun p => emailEntrySpec p.1 p.2)) ++ "\n</result>")
    ∧ Gmail.search_for_emails c10Env emptyContext "q" 30 none =
      .ok ("<result>\n" ++ String.intercalate ""
        ([("id1", c10Msg)].map (fun p => emailEntrySpec p.1 p.2)) ++ "\n</result>")
    ∧ Gmail.get_email_by_id c10Env emptyContext "id1" =
      .ok (emailByIdPayloadSpec "id1" c10Msg) :=
  c10_snippet_body_escaping c10Env emptyContext c10Service witnessCalendarService
    true 30 none "q" "id1" "id1" [] [("id1", c10Msg)] c10Msg rfl rfl rfl rfl rfl

/-- A Google environment whose authentication step raises. -/
def failingGoogleEnv : GoogleEnv :=
  ⟨.error "authentication failed", fun _ _ _ _ => "raw", "2025-01-01T00:00:00",
    fun s => .ok s⟩

/-- Counterexample to claim C1: an authentication failure is NOT caught at
the function boundary — `authenticate_gmail()` runs before the try-block
(gmail.py line 28), so the exception propagates out of read_emails instead
of being converted into a structured failure payload. -/
theorem c1_counterexample :
    Gmail.read_emails failingGoogleEnv emptyContext true 30 none =
      Except.error "authentication failed" := rfl

/-- Claim C1 as amended: once the client/service acquisition step has
succeeded (Google authentication, the Twitter client constructor, the cached
Spotify client), no exception propagates out of any of the thirteen
capability functions for any input and any backend behaviour — every raise
inside the try-block is caught and returned as a payload string.  (The
acquisition step itself runs before each try-block, and its exceptions do
propagate, as `c1_counterexample` shows.) -/
theorem c1_amended
    (genv : GoogleEnv) (gservice : Gmail.GmailService)
    (cservice : Calendar.CalendarService)
    (tenv : X.TwitterEnv) (tclient : X.TwitterClient)
    (senv : Spotify.SpotifyEnv) (sp : Spotify.SpotifyClient) (cv : Context)
    (unread : Bool) (n lim : Nat) (df tmin desc loc att sm st et : Option String)
    (q eid toA subj body tweet summary start_t end_t evId q2 ty act : String)
    (hg : genv.authenticate = .ok (gservice, cservice))
    (ht : tenv.authenticate = .ok tclient)
    (hs : senv.getClient = .ok sp) :
    (∃ s, Gmail.read_emails genv cv unread n df = .ok s)
    ∧ (∃ s, Gmail.search_for_emails genv cv q n df = .ok s)
    ∧ (∃ s, Gmail.write_email genv cv toA subj body = .ok s)
    ∧ (∃ s, Gmail.get_email_by_id genv cv eid = .ok s)
    ∧ (∃ s, Calendar.list_upcoming_events genv cv n tmin = .ok s)
    ∧ (∃ s, Calendar.create_event genv cv summary start_t end_t desc loc att = .ok s)
    ∧ (∃ s, Calendar.delete_event genv cv evId = .ok s)
    ∧ (∃ s, Calendar.update_event genv cv evId sm st et desc loc att = .ok s)
    ∧ (∃ s, X.send_tweet tenv cv tweet = .ok s)
    ∧ (∃ r, Spotify.play senv cv q2 ty = .ok r)
    ∧ (∃ r, Spotify.search senv cv q2 ty lim = .ok r)
    ∧ (∃ r, Spotify.get_current_track senv cv = .ok r)
    ∧ (∃ r, Spotify.control_playback senv cv act = .ok r) := by
  refine ⟨?_, ?_, ?_, ?_, ?_, ?_, ?_, ?_, ?_, ?_, ?_, ?_, ?_⟩ <;>
    simp only [Gmail.read_emails, Gmail.search_for_emails, Gmail.write_email,
      Gmail.get_email_by_id, Calendar.list_upcoming_events, Calendar.create_event,
      Calendar.delete_event, Calendar.update_event, X.send_tweet, Spotify.play,
      Spotify.search, Spotify.get_current_track, Spotify.control_playback,
      hg, ht, hs] <;>
    exact ⟨_, rfl⟩

/-- A Gmail service whose every operation raises (but was acquired). -/
def okGmailService : Gmail.GmailService :=
  ⟨fun _ _ => .error "network error", fun _ => .error "network error",
    fun _ => .error "network error"⟩

/-- A Google environment that authenticates successfully. -/
def okGoogleEnv : GoogleEnv :=
  ⟨.ok (okGmailService, witnessCalendarService), fun _ _ _ _ => "raw",
    "2025-01-01T00:00:00", fun _ => .error "Invalid isoformat string"⟩

/-- A Twitter client whose tweet call raises. -/
def okTwitterClient : X.TwitterClient := ⟨fun _ => .error "network error"⟩

/-- A Twitter environment that builds its client successfully. -/
def okTwitterEnv : X.TwitterEnv := ⟨.ok okTwitterClient⟩

/-- A Spotify client whose every API call raises (but was acquired). -/
def okSpotifyClient : Spotify.SpotifyClient :=
  ⟨fun _ _ _ => .error "network error", fun _ => .error "network error",
    fun _ => .error "network error", .error "network error", .error "network error",
    .error "network error", .error "network error", .error "network error"⟩

/-- A Spotify environment that acquires its client successfully. -/
def okSpotifyEnv : Spotify.SpotifyEnv := ⟨.ok okSpotifyClient⟩

/-- Witness for c1_amended: with acquisition succeeding and every backend
operation raising, all thirteen capability functions still return
normally. -/
theorem c1_amended_witness :
    (∃ s, Gmail.read_emails okGoogleEnv emptyContext true 30 none = .ok s)
    ∧ (∃ s, Gmail.search_for_emails okGoogleEnv emptyContext "q" 30 none = .ok s)
    ∧ (∃ s, Gmail.write_email okGoogleEnv emptyContext "b@c.d" "s" "b" = .ok s)
    ∧ (∃ s, Gmail.get_email_by_id okGoogleEnv emptyContext "id1" = .ok s)
    ∧ (∃ s, Calendar.list_upcoming_events okGoogleEnv emptyContext 30 none = .ok s)
    ∧ (∃ s, Calendar.create_event okGoogleEnv emptyContext "Meeting"
        "2025-01-01T10:00:00" "2025-01-01T11:00:00" none none none = .ok s)
    ∧ (∃ s, Calendar.delete_event okGoogleEnv emptyContext "ev1" = .ok s)
    ∧ (∃ s, Calendar.update_event okGoogleEnv emptyContext "ev1" none none none
        none none none = .ok s)
    ∧ (∃ s, X.send_tweet okTwitterEnv emptyContext "tw" = .ok s)
    ∧ (∃ r, Spotify.play okSpotifyEnv emptyContext "song" "track" = .ok r)
    ∧ (∃ r, Spotify.search okSpotifyEnv emptyContext "song" "track" 5 = .ok r)
    ∧ (∃ r, Spotify.get_current_track okSpotifyEnv emptyContext = .ok r)
    ∧ (∃ r, Spotify.control_playback okSpotifyEnv emptyContext "play" = .ok r) :=
  c1_amended okGoogleEnv okGmailService witnessCalendarService okTwitterEnv
    okTwitterClient okSpotifyEnv okSpotifyClient emptyContext true 30 5
    none none none none none none none none
    "q" "id1" "b@c.d" "s" "b" "tw" "Meeting" "2025-01-01T10:00:00"
    "2025-01-01T11:00:00" "ev1" "song" "track" "play" rfl rfl rfl

/-- A Spotify environment whose client acquisition raises. -/
def failingSpotifyEnv : Spotify.SpotifyEnv := ⟨.error "spotify authentication failed"⟩

/-- Counterexample to claim C9: with an invalid content_type, play does NOT
always return an error-tagged result string — `get_spotify_client()` runs
before the try-block and before the validation (spotify.py line 65), so
when client acquisition fails the call raises instead of returning the
invalid-content-type payload. -/
theorem c9_counterexample :
    Spotify.play failingSpotifyEnv emptyContext "song" "foo" =
      Except.error "spotify authentication failed" := rfl

/-- Claim C9 as amended: whenever the Spotify client is acquired
successfully, a call to play with a content_type outside
track/album/artist/playlist, a call to search with a search_type outside the
seven valid types, and a call to control_playback with an action outside
play/pause/next/previous each return an error-tagged result string naming
the invalid value, and perform no Spotify search, playback or control API
call (the recorded call list is empty). -/
theorem c9_amended (senv : Spotify.SpotifyEnv) (sp : Spotify.SpotifyClient)
    (cv : Context) (q ty sty act : String) (lim : Nat)
    (hs : senv.getClient = .ok sp)
    (hty : Spotify.playValidTypes.contains ty = false)
    (hsty : Spotify.searchValidTypes.contains sty = false)
    (h1 : act ≠ "play") (h2 : act ≠ "pause") (h3 : act ≠ "next")
    (h4 : act ≠ "previous") :
    Spotify.play senv cv q ty =
      .ok ("<result><error>Invalid content type: \x27" ++ ty ++
        "\x27. Valid types are: track, album, artist, playlist</error></result>", [])
    ∧ Spotify.search senv cv q sty lim =
      .ok ("<result><error>Invalid search type: \x27" ++ sty ++
        "\x27. Valid types are: album, artist, playlist, track, show, episode, audiobook</error></result>",
        [])
    ∧ Spotify.control_playback senv cv act =
      .ok ("<result><error>Invalid action: " ++ act ++ "</error></result>", []) := by
  refine ⟨?_, ?_, ?_⟩
  · simp [Spotify.play, hs, Spotify.play_try, hty]
    intro h
    exact absurd h (by simpa using hty)
  · simp [Spotify.search, hs, Spotify.search_try, hsty]
    intro h
    exact absurd h (by simpa using hsty)
  · simp [Spotify.control_playback, hs, Spotify.control_playback_try, h1, h2, h3, h4]

/-- Witness for c9_amended at concrete invalid values. -/
theorem c9_amended_witness :
    Spotify.play okSpotifyEnv emptyContext "song" "foo" =
      .ok ("<result><error>Invalid content type: \x27" ++ "foo" ++
        "\x27. Valid types are: track, album, artist, playlist</error></result>", [])
    ∧ Spotify.search okSpotifyEnv emptyContext "song" "bar" 5 =
      .ok ("<result><error>Invalid search type: \x27" ++ "bar" ++
        "\x27. Valid types are: album, artist, playlist, track, show, episode, audiobook</error></result>",
        [])
    ∧ Spotify.control_playback okSpotifyEnv emptyContext "stop" =
      .ok ("<result><error>Invalid action: " ++ "stop" ++ "</error></result>", []) :=
  c9_amended okSpotifyEnv okSpotifyClient emptyContext "song" "foo" "bar" "stop" 5
    rfl (by decide) (by decide) (by decide) (by decide) (by decide) (by decide)

/-- Claim C8 (spec-modelled): the dispatcher loop enforces its safety
bound — for every model behaviour, capability behaviour and start state,
the number of model invocations it performs never exceeds the configured
maximum, and an exhausted bound terminates the turn with the
LoopBoundExceeded report rather than spinning; by construction the loop
otherwise ends only at a plain reply or at a fatal unknown-function
protocol violation. -/
theorem c8_loop_safety_bound (env : Dispatcher.DispatchEnv)
    (st : Dispatcher.DispatchState) (maxTurns : Nat) :
    (Dispatcher.runLoop env st maxTurns).2 ≤ maxTurns
    ∧ Dispatcher.runLoop env st 0 =
      (Dispatcher.DispatchResult.loopBoundExceeded, 0) := by
  refine ⟨?_, rfl⟩
  induction maxTurns generalizing st with
  | zero => simp [Dispatcher.runLoop]
  | succ k ih =>
    simp only [Dispatcher.runLoop]
    rcases hm : env.model st.active st.history with t | names
    · simp
    · dsimp only
      rcases hx : Dispatcher.execCalls env names st with e | st2
      · simp
      · simpa using Nat.succ_le_succ (ih st2)

/-- A dispatcher environment whose model immediately replies. -/
def c8Env : Dispatcher.DispatchEnv :=
  ⟨fun _ _ => Dispatcher.ModelOutput.reply "done", fun _ => "obs"⟩

/-- A session start state at the base agent with empty history. -/
def c8St : Dispatcher.DispatchState := ⟨Agents.AgentId.base, []⟩

/-- Witness for c8_loop_safety_bound at a concrete environment and bound. -/
theorem c8_witness :
    (Dispatcher.runLoop c8Env c8St 3).2 ≤ 3
    ∧ Dispatcher.runLoop c8Env c8St 0 =
      (Dispatcher.DispatchResult.loopBoundExceeded, 0) :=
  c8_loop_safety_bound c8Env c8St 3
